import Mathlib

/-!
# Verification of the jankee-manager-frontend derived-data layer

A shallow embedding of the derived-metric helpers (`src/lib/utils/helpers.ts`),
the zod validation schemas (`src/lib/utils/validation.ts` with the constants of
`src/config/constants.ts`), the React Query retry configuration
(`src/lib/queryClient.ts`) and the optimistic update/rollback handlers of the
client and activity update mutations (`src/hooks/useClients.ts`,
`src/hooks/useActivities.ts`), together with theorems settling the spec claims
about them.

JavaScript values are modelled as follows: machine floats that can be NaN are
`Option ℚ` (with `none` for NaN, propagated by `jsAdd`/`jsMul`); strings are
Lean `String`s compared by the code-unit lexicographic order `jsStrLe` (the
order used by the JS `<=`/`>=` operators on strings); `new Date(s).getTime()`
on an ISO `YYYY-MM-DD` string is `dateMs` (milliseconds since the Unix epoch,
via the standard civil-calendar day count); the wall clock read by `new Date()`
is an explicit `now`/`today` parameter of each embedded function that reads it.
-/

namespace Jankee

/-! ## JS string and number primitives -/

/-- `true` on the ASCII digits `0`-`9`. -/
def isDigitChar (c : Char) : Bool := '0' ≤ c && c ≤ '9'

/-- `true` on the ASCII uppercase letters `A`-`Z`. -/
def isUpperChar (c : Char) : Bool := 'A' ≤ c && c ≤ 'Z'

/-- Numeric value of an ASCII digit. -/
def digitVal (c : Char) : Nat := c.toNat - '0'.toNat

/-- Does the second list occur at the head of the first? -/
def matchHead : List Char → List Char → Bool
  | _, [] => true
  | [], _ :: _ => false
  | c :: cs, d :: ds => c == d && matchHead cs ds

/-- Does the second list occur as a contiguous run inside the first? -/
def hasSub : List Char → List Char → Bool
  | [], pat => pat.isEmpty
  | c :: cs, pat => matchHead (c :: cs) pat || hasSub cs pat

/-- Models `String.prototype.includes` from JS. -/
def strIncludes (s pat : String) : Bool := hasSub s.toList pat.toList

/-- JS lexicographic `<` on strings, code unit by code unit. -/
def jsStrLtChars : List Char → List Char → Bool
  | [], [] => false
  | [], _ :: _ => true
  | _ :: _, [] => false
  | c :: cs, d :: ds => if c < d then true else if d < c then false else jsStrLtChars cs ds

/-- Models the JS `a <= b` comparison on strings. -/
def jsStrLe (a b : String) : Bool := !(jsStrLtChars b.toList a.toList)

/-- JS truthiness of an optional string value: `undefined`/`null` and the
empty string are falsy, every other string is truthy. -/
def strTruthy : Option String → Bool
  | none => false
  | some s => !(decide (s = ""))

/-- A JS float that may be NaN: `none` is NaN. -/
abbrev JSNum := Option ℚ

/-- JS `+` on floats: NaN absorbs. -/
def jsAdd : JSNum → JSNum → JSNum
  | some a, some b => some (a + b)
  | _, _ => none

/-- JS `*` on floats: NaN absorbs. -/
def jsMul : JSNum → JSNum → JSNum
  | some a, some b => some (a * b)
  | _, _ => none

/-- Value of a list of ASCII digits read in base 10. -/
def digitsToNat (ds : List Char) : Nat := ds.foldl (fun n c => 10 * n + digitVal c) 0

/-- Modelled from the spec: the ECMAScript `parseFloat` builtin (not part of
this repository), restricted to the fragment the app can feed it — optional
sign, integer digits, optional fraction; `none` (NaN) when no digit is
consumed; trailing garbage ignored. -/
def parseFloatCore (l : List Char) (neg : Bool) : Option ℚ :=
  let intPart := l.takeWhile isDigitChar
  let rest := l.dropWhile isDigitChar
  let fracPart :=
    match rest with
    | '.' :: r => r.takeWhile isDigitChar
    | _ => []
  if intPart.isEmpty && fracPart.isEmpty then none
  else
    let mag : ℚ := (digitsToNat intPart : ℚ) + (digitsToNat fracPart : ℚ) / (10 ^ fracPart.length)
    some (if neg then -mag else mag)

/-- Modelled from the spec: ECMAScript `parseFloat` — see `parseFloatCore`. -/
def parseFloat (s : String) : Option ℚ :=
  match s.toList.dropWhile (fun c => c == ' ') with
  | '-' :: r => parseFloatCore r true
  | '+' :: r => parseFloatCore r false
  | r => parseFloatCore r false

/-! ## Dates

`new Date("YYYY-MM-DD")` denotes UTC midnight of that civil date, and
`getTime()` returns whole milliseconds since the Unix epoch. `daysFromCivil`
is the standard civil-from-date day count, and `dateMs` composes it with the
digit parse of the ISO string. -/

/-- Days since 1970-01-01 of the civil date `y-m-d` (proleptic Gregorian). -/
def daysFromCivil (y m d : Nat) : Int :=
  let y' := if m ≤ 2 then y - 1 else y
  let era := y' / 400
  let yoe := y' % 400
  let mp := if m > 2 then m - 3 else m + 9
  let doy := (153 * mp + 2) / 5 + d - 1
  let doe := yoe * 365 + yoe / 4 - yoe / 100 + doy
  ((era * 146097 + doe : Nat) : Int) - 719468

/-- Models `new Date(s).getTime()` for a well-formed ISO `YYYY-MM-DD` string. -/
def dateMs (s : String) : Int :=
  match s.toList with
  | [y1, y2, y3, y4, '-', m1, m2, '-', d1, d2] =>
      86400000 * daysFromCivil
        (1000 * digitVal y1 + 100 * digitVal y2 + 10 * digitVal y3 + digitVal y4)
        (10 * digitVal m1 + digitVal m2)
        (10 * digitVal d1 + digitVal d2)
  | _ => 0

/-! ## Entity records

`client.types.ts` and `site.types.ts` are not under `src/`; the `Client` and
`SiteCurrentStatus` shapes below are modelled from their uses in
`activity.types.ts` (`ActivityWithRelations.client`), the services and
`calculateOccupancy`. `Activity` follows `activity.types.ts` exactly; a field
typed `string | number` in TS is a `RateValue` here, and every optional or
nullable field is an `Option`. -/

/-- A TS `string | number` value. -/
inductive RateValue where
  | num (q : ℚ)
  | str (s : String)
deriving DecidableEq

/-- `ActionType` from `activity.types.ts`. -/
inductive ActionType where
  | shift
  | new
  | flex_change
deriving DecidableEq

/-- `BillType` from `activity.types.ts`. -/
inductive BillType where
  | quotation
  | bill
  | foc
deriving DecidableEq

/-- `Activity` from `activity.types.ts`. `ratePerMonth` is an `Option` because
the runtime guard `!activity.ratePerMonth` in the revenue code also covers a
missing field. -/
structure Activity where
  id : String
  action : ActionType
  siteId : String
  siteNo : String
  clientId : String
  clientName : String
  previousClientId : Option String := none
  previousClientName : Option String := none
  startDate : String
  endDate : Option String := none
  ratePerMonth : Option RateValue := none
  totalMonths : Option ℚ := none
  totalAmount : Option RateValue := none
  printingCost : Option RateValue := none
  mountingCost : Option RateValue := none
  notes : Option String := none
  createdBy : Option String := none
  createdAt : String := ""
  updatedAt : String := ""
deriving DecidableEq

/-- A site together with its current assignment, as consumed by
`calculateOccupancy`; only `currentClientId` is inspected there. -/
structure SiteCurrentStatus where
  id : String := ""
  siteNo : String := ""
  currentClientId : Option String := none
deriving DecidableEq

/-! ## Derived-metric helpers (`src/lib/utils/helpers.ts`) -/

/-- `calculateOccupancy` from `helpers.ts`:
`if (sites.length === 0) return 0;`
`const activeSites = sites.filter((site) => site.currentClientId).length;`
`return (activeSites / sites.length) * 100;` -/
def calculateOccupancy (sites : List SiteCurrentStatus) : ℚ :=
  if sites.length = 0 then 0
  else ((sites.filter fun site => strTruthy site.currentClientId).length : ℚ)
    / (sites.length : ℚ) * 100

/-- `getDaysBetween` from `helpers.ts`: `Math.ceil(|end - start| ms / 86400000)`
with `end` defaulting to `new Date()` — the explicit `now` parameter here. -/
def getDaysBetween (startDate : String) (endDate : Option String) (now : Int) : Nat :=
  let s := dateMs startDate
  let e := match endDate with
    | some d => dateMs d
    | none => now
  ((e - s).natAbs + (86400000 - 1)) / 86400000

/-- `getMonthsBetween` from `helpers.ts`: `Math.ceil(days / 30)`. -/
def getMonthsBetween (startDate : String) (endDate : Option String) (now : Int) : Nat :=
  (getDaysBetween startDate endDate now + (30 - 1)) / 30

/-- `isActivityActive` from `helpers.ts`. In the source, `today` is not a
parameter: it is computed inside the function as
`new Date().toISOString().split('T')[0]`; the embedding makes that wall-clock
read explicit as the `today` argument. The comparisons are JS string
comparisons on ISO dates. -/
def isActivityActive (activity : Activity) (today : String) : Bool :=
  let isAfterStart := jsStrLe activity.startDate today
  let isBeforeEnd := !(strTruthy activity.endDate) || jsStrLe today (activity.endDate.getD "")
  isAfterStart && isBeforeEnd

/-- JS truthiness of an optional `string | number` value: missing, `0` and
`""` are falsy. -/
def rateTruthy : Option RateValue → Bool
  | none => false
  | some (RateValue.num q) => !(decide (q = 0))
  | some (RateValue.str s) => !(decide (s = ""))

/-- `typeof rate === 'string' ? parseFloat(rate) : rate`. -/
def rateToNumber : RateValue → JSNum
  | RateValue.num q => some q
  | RateValue.str s => parseFloat s

/-- `calculateTotalRevenue` from `helpers.ts`: a reduce over the activities
that skips falsy rates and otherwise adds `rate * months`, where a string rate
goes through `parseFloat` (so a non-numeric string contributes NaN, which
absorbs the whole total). -/
def calculateTotalRevenue (activities : List Activity) (now : Int) : JSNum :=
  activities.foldl
    (fun total activity =>
      if !(rateTruthy activity.ratePerMonth) then total
      else
        jsAdd total
          (jsMul (rateToNumber (activity.ratePerMonth.getD (RateValue.num 0)))
            (some ((getMonthsBetween activity.startDate activity.endDate now : ℕ) : ℚ))))
    (some 0)

/-- The descending-start-date order used by `sortActivitiesByDate`: the source
comparator is `(a, b) => new Date(b.startDate).getTime() - new Date(a.startDate).getTime()`. -/
def byStartDateDesc (a b : Activity) : Prop :=
  dateMs b.startDate ≤ dateMs a.startDate

instance : DecidableRel byStartDateDesc := fun a b =>
  inferInstanceAs (Decidable (dateMs b.startDate ≤ dateMs a.startDate))

/-- `sortActivitiesByDate` from `helpers.ts`:
`[...activities].sort((a, b) => time(b.startDate) - time(a.startDate))`.
`Array.prototype.sort` is specified to be stable, and any stable sort agrees
with stable insertion sort on a comparator that is a total preorder, so the
embedding is `List.insertionSort` with the comparator's order. -/
def sortActivitiesByDate (activities : List Activity) : List Activity :=
  activities.insertionSort byStartDateDesc

/-- `filterActivitiesByDateRange` from `helpers.ts`:
`activities.filter((a) => a.startDate >= fromDate && a.startDate <= toDate)`
(JS string comparisons, inclusive on both ends). -/
def filterActivitiesByDateRange (activities : List Activity) (fromDate toDate : String) :
    List Activity :=
  activities.filter fun activity =>
    jsStrLe fromDate activity.startDate && jsStrLe activity.startDate toDate

/-! ## Validation layer (`src/lib/utils/validation.ts`, `src/config/constants.ts`)

A zod parse is modelled as a function from form data to the list of
field-scoped issues: empty list means the input is accepted. Messages are the
source template literals with the `VALIDATION` constants substituted. For a
schema with `.refine` chains, zod runs the refinements only once the base
object checks succeed, so the embedding returns the base issues when they are
non-empty and the refinement issues otherwise. -/

/-- A field-scoped validation issue: zod `path` plus `message`. -/
structure FieldError where
  path : String
  message : String
deriving DecidableEq

/-- `VALIDATION.GST_NUMBER.PATTERN` from `constants.ts`:
`/^[0-9]{2}[A-Z]{5}[0-9]{4}[A-Z]{1}[1-9A-Z]{1}Z[0-9A-Z]{1}$/` applied to the
character list of the candidate. -/
def gstPatternChars : List Char → Bool
  | [a1, a2, b1, b2, b3, b4, b5, c1, c2, c3, c4, e1, f1, z1, g1] =>
      isDigitChar a1 && isDigitChar a2 &&
      isUpperChar b1 && isUpperChar b2 && isUpperChar b3 && isUpperChar b4 && isUpperChar b5 &&
      isDigitChar c1 && isDigitChar c2 && isDigitChar c3 && isDigitChar c4 &&
      isUpperChar e1 &&
      (('1' ≤ f1 && f1 ≤ '9') || isUpperChar f1) &&
      z1 == 'Z' &&
      (isDigitChar g1 || isUpperChar g1)
  | _ => false

/-- `VALIDATION.GST_NUMBER.PATTERN.test` on a string. -/
def gstPatternTest (s : String) : Bool := gstPatternChars s.toList

/-- The `gstNumber` refinement of `clientSchema`:
`(val) => !val || (val.length === VALIDATION.GST_NUMBER.LENGTH && PATTERN.test(val))`
on an optional string (absent and empty are accepted). -/
def gstAccepts (val : Option String) : Bool :=
  match val with
  | none => true
  | some v => !(strTruthy (some v)) || (decide (v.length = 15) && gstPatternTest v)

/-- Modelled from the spec: zod's `.email()` format check (the spec only
requires a syntactically valid address); the exact zod regex is not in this
repository, so a coarse shape — one `@` with a non-empty local part and a
dot-containing domain — stands in for it. None of the theorems below depend
on this definition beyond it being a fixed pure predicate. -/
def emailValid (s : String) : Bool :=
  match s.toList.splitOn '@' with
  | [local_, domain] =>
      !(local_.isEmpty) && !(domain.isEmpty) && domain.contains '.' &&
      !(domain.headD '.' == '.') && !(domain.getLastD '.' == '.')
  | _ => false

/-- `ClientFormData` inferred from `clientSchema`. -/
structure ClientFormData where
  name : String
  contactPerson : Option String := none
  email : Option String := none
  phone : Option String := none
  address : Option String := none
  notes : Option String := none
  gstNumber : Option String := none
deriving DecidableEq

/-- The issue list of a `clientSchema` parse. `name` carries min/max length
checks, `email` accepts absent, empty or valid addresses, and `gstNumber`
carries the GST refinement with its message. -/
def validateClient (d : ClientFormData) : List FieldError :=
  (if d.name.length < 2 then
    [⟨"name", "Client name must be at least 2 characters"⟩] else []) ++
  (if d.name.length > 200 then
    [⟨"name", "Client name must be max 200 characters"⟩] else []) ++
  (match d.email with
   | none => []
   | some e => if decide (e = "") || emailValid e then [] else
      [⟨"email", "Invalid email format"⟩]) ++
  (if gstAccepts d.gstNumber then [] else
    [⟨"gstNumber", "Invalid GST number format. Must be 15 characters. Example: 29ABCDE1234F1Z5"⟩])

/-- `ActivityFormData` inferred from `activitySchema` (after the enum parses,
`action` is an `ActionType` and `billType` a `BillType`). -/
structure ActivityFormData where
  date : String
  clientId : String
  siteId : String
  previousClientId : Option String := none
  action : ActionType
  dateOfPurchase : String
  fromDate : String
  toDate : Option String := none
  billNo : Option String := none
  billType : Option BillType := none
  ratePerMonth : Option ℚ := none
  remarks : Option String := none
deriving DecidableEq

/-- The base (per-field) issues of an `activitySchema` parse, before the
`.refine` chain. -/
def validateActivityBase (d : ActivityFormData) : List FieldError :=
  (if d.date.length < 1 then [⟨"date", "Activity date is required"⟩] else []) ++
  (if d.clientId.length < 1 then [⟨"clientId", "Client is required"⟩] else []) ++
  (if d.siteId.length < 1 then [⟨"siteId", "Site is required"⟩] else []) ++
  (if d.dateOfPurchase.length < 1 then
    [⟨"dateOfPurchase", "Date of purchase is required"⟩] else []) ++
  (if d.fromDate.length < 1 then [⟨"fromDate", "From date is required"⟩] else []) ++
  (match d.billNo with
   | none => []
   | some b => if b.length > 100 then
      [⟨"billNo", "Bill number must be max 100 characters"⟩] else []) ++
  (match d.ratePerMonth with
   | none => []
   | some q =>
      (if q < 0 then [⟨"ratePerMonth", "Rate must be positive"⟩] else []) ++
      (if q > 10000000 then [⟨"ratePerMonth", "Rate must be less than 10000000"⟩] else []))

/-- The first `activitySchema` refinement:
`if (data.action === 'shift') return !!data.previousClientId; return true;`. -/
def previousClientRule (d : ActivityFormData) : Bool :=
  if d.action = ActionType.shift then strTruthy d.previousClientId else true

/-- The second `activitySchema` refinement:
`if (data.toDate && data.fromDate) return new Date(toDate) > new Date(fromDate);`. -/
def endAfterStartRule (d : ActivityFormData) : Bool :=
  if strTruthy d.toDate && strTruthy (some d.fromDate) then
    decide (dateMs d.fromDate < dateMs (d.toDate.getD ""))
  else true

/-- The third `activitySchema` refinement:
`if (data.fromDate && data.dateOfPurchase) return new Date(fromDate) >= new Date(dateOfPurchase);`. -/
def fromAfterPurchaseRule (d : ActivityFormData) : Bool :=
  if strTruthy (some d.fromDate) && strTruthy (some d.dateOfPurchase) then
    decide (dateMs d.dateOfPurchase ≤ dateMs d.fromDate)
  else true

/-- The issue list of an `activitySchema` parse: base field issues, then the
three refinements with their `path`/`message` pairs. -/
def validateActivity (d : ActivityFormData) : List FieldError :=
  let base := validateActivityBase d
  if base.isEmpty then
    (if previousClientRule d then [] else
      [⟨"previousClientId", "Previous client is required for shift action"⟩]) ++
    (if endAfterStartRule d then [] else
      [⟨"toDate", "End date must be after start date"⟩]) ++
    (if fromAfterPurchaseRule d then [] else
      [⟨"fromDate", "Start date should be on or after purchase date"⟩])
  else base

/-! ## React Query retry configuration (`src/lib/queryClient.ts`) -/

/-- The `queries.retry` predicate of `defaultQueryOptions`: no retry when the
error message contains `404` or `401`, otherwise retry while
`failureCount < 2`. -/
def queryRetry (failureCount : Nat) (errorMessage : String) : Bool :=
  if strIncludes errorMessage "404" || strIncludes errorMessage "401" then false
  else decide (failureCount < 2)

/-- The `mutations.retry` option of `defaultQueryOptions`: the literal `1`. -/
def mutationRetryCount : Nat := 1

/-- Modelled from the spec: React Query's interpretation of a numeric
`retry: n` option (library semantics, not repository code) — a failed call is
retried while the current failure count is below `n`. -/
def mutationRetry (failureCount : Nat) : Bool := failureCount < mutationRetryCount

/-! ## Optimistic update and rollback (`useClients.ts`, `useActivities.ts`)

The React Query cache is modelled per entity as a map from query keys to
optional cached values; `getQueryData` is application, `setQueryData` is
pointwise update. `onMutate` receives the mutation variables and returns the
new cache plus the context object `{ previousX }` it builds; `onError`
receives that context and returns the rolled-back cache. `cancelQueries` does
not change any cached value and has no counterpart in the state. The
`updatedAt: new Date().toISOString()` write is the explicit `now` argument. -/

/-- A React Query key, e.g. `['clients', id]`. -/
abbrev QueryKey := List String

/-- The cached entries of one entity type, keyed by query key. -/
abbrev Cache (α : Type) := QueryKey → Option α

/-- `queryClient.setQueryData(key, value)`. -/
def setQueryData {α : Type} (cache : Cache α) (key : QueryKey) (value : α) : Cache α :=
  fun k => if k = key then some value else cache k

/-- `QUERY_KEYS.CLIENT(id) = ['clients', id]` from `constants.ts`. -/
def clientDetailKey (id : String) : QueryKey := ["clients", id]

/-- `QUERY_KEYS.ACTIVITY(id) = ['activities', id]` from `constants.ts`. -/
def activityDetailKey (id : String) : QueryKey := ["activities", id]

/-- `Client` modelled from its uses (`client.types.ts` is not under `src/`):
the backend client record shape of `ActivityWithRelations.client`. -/
structure Client where
  id : String
  clientNo : String := ""
  name : String := ""
  contactPerson : Option String := none
  email : Option String := none
  phone : Option String := none
  address : Option String := none
  gstNumber : Option String := none
  notes : Option String := none
  createdAt : String := ""
  updatedAt : String := ""
deriving DecidableEq

/-- `Partial<CreateClientRequest>`: every field optional; `none` is an absent
key, which the object spread leaves untouched. -/
structure PartialClient where
  name : Option String := none
  contactPerson : Option String := none
  email : Option String := none
  phone : Option String := none
  address : Option String := none
  gstNumber : Option String := none
  notes : Option String := none
deriving DecidableEq

/-- The optimistic value `{ ...previousClient, ...data, updatedAt: now }`. -/
def mergeClient (prev : Client) (data : PartialClient) (now : String) : Client :=
  { prev with
    name := data.name.getD prev.name
    contactPerson := data.contactPerson.or prev.contactPerson
    email := data.email.or prev.email
    phone := data.phone.or prev.phone
    address := data.address.or prev.address
    gstNumber := data.gstNumber.or prev.gstNumber
    notes := data.notes.or prev.notes
    updatedAt := now }

/-- The `onMutate` context of `useUpdateClientMutation`. -/
structure ClientMutationCtx where
  previousClient : Option Client
deriving DecidableEq

/-- `onMutate` of `useUpdateClientMutation`: snapshot the detail key, write the
optimistic merge only when a value was cached, return the snapshot context. -/
def updateClientOnMutate (cache : Cache Client) (id : String) (data : PartialClient)
    (now : String) : Cache Client × ClientMutationCtx :=
  let previousClient := cache (clientDetailKey id)
  match previousClient with
  | some prev =>
      (setQueryData cache (clientDetailKey id) (mergeClient prev data now), ⟨previousClient⟩)
  | none => (cache, ⟨none⟩)

/-- `onError` of `useUpdateClientMutation`: restore the snapshot when the
context carries one. -/
def updateClientOnError (cache : Cache Client) (id : String) (ctx : ClientMutationCtx) :
    Cache Client :=
  match ctx.previousClient with
  | some prev => setQueryData cache (clientDetailKey id) prev
  | none => cache

/-- `Partial<CreateActivityRequest>` from `activity.types.ts`. -/
structure PartialActivity where
  action : Option ActionType := none
  siteId : Option String := none
  clientId : Option String := none
  previousClientId : Option String := none
  startDate : Option String := none
  endDate : Option String := none
  ratePerMonth : Option RateValue := none
  totalMonths : Option ℚ := none
  totalAmount : Option RateValue := none
  printingCost : Option RateValue := none
  mountingCost : Option RateValue := none
  notes : Option String := none
deriving DecidableEq

/-- The optimistic value `{ ...previousActivity, ...data, updatedAt: now }`. -/
def mergeActivity (prev : Activity) (data : PartialActivity) (now : String) : Activity :=
  { prev with
    action := data.action.getD prev.action
    siteId := data.siteId.getD prev.siteId
    clientId := data.clientId.getD prev.clientId
    previousClientId := data.previousClientId.or prev.previousClientId
    startDate := data.startDate.getD prev.startDate
    endDate := data.endDate.or prev.endDate
    ratePerMonth := data.ratePerMonth.or prev.ratePerMonth
    totalMonths := data.totalMonths.or prev.totalMonths
    totalAmount := data.totalAmount.or prev.totalAmount
    printingCost := data.printingCost.or prev.printingCost
    mountingCost := data.mountingCost.or prev.mountingCost
    notes := data.notes.or prev.notes
    updatedAt := now }

/-- The `onMutate` context of `useUpdateActivityMutation`. -/
structure ActivityMutationCtx where
  previousActivity : Option Activity
deriving DecidableEq

/-- `onMutate` of `useUpdateActivityMutation`. -/
def updateActivityOnMutate (cache : Cache Activity) (id : String) (data : PartialActivity)
    (now : String) : Cache Activity × ActivityMutationCtx :=
  let previousActivity := cache (activityDetailKey id)
  match previousActivity with
  | some prev =>
      (setQueryData cache (activityDetailKey id) (mergeActivity prev data now), ⟨previousActivity⟩)
  | none => (cache, ⟨none⟩)

/-- `onError` of `useUpdateActivityMutation`. -/
def updateActivityOnError (cache : Cache Activity) (id : String) (ctx : ActivityMutationCtx) :
    Cache Activity :=
  match ctx.previousActivity with
  | some prev => setQueryData cache (activityDetailKey id) prev
  | none => cache

/-! ## Theorems -/

/-- C1: for every update mutation (client or activity) whose remote call
fails, running the error handler on the cache produced by the optimistic
`onMutate` step restores the cache to exactly its pre-mutation state, for
every starting cache, entity id, patch and timestamp — so the caller never
observes the optimistic value after the failure is surfaced. -/
theorem update_mutation_rollback_exact :
    (∀ (cache : Cache Client) (id : String) (data : PartialClient) (now : String),
      updateClientOnError (updateClientOnMutate cache id data now).1 id
        (updateClientOnMutate cache id data now).2 = cache) ∧
    (∀ (cache : Cache Activity) (id : String) (data : PartialActivity) (now : String),
      updateActivityOnError (updateActivityOnMutate cache id data now).1 id
        (updateActivityOnMutate cache id data now).2 = cache) := by
  constructor
  · intro cache id data now
    cases h : cache (clientDetailKey id) with
    | none => simp [updateClientOnMutate, updateClientOnError, h]
    | some prev =>
      simp only [updateClientOnMutate, updateClientOnError, h]
      funext k
      by_cases hk : k = clientDetailKey id <;> simp [setQueryData, hk, h]
  · intro cache id data now
    cases h : cache (activityDetailKey id) with
    | none => simp [updateActivityOnMutate, updateActivityOnError, h]
    | some prev =>
      simp only [updateActivityOnMutate, updateActivityOnError, h]
      funext k
      by_cases hk : k = activityDetailKey id <;> simp [setQueryData, hk, h]

/-- C10: when nothing is cached under the detail key of the entity being
updated, `onMutate` writes nothing (the cache is unchanged), the rollback
context carries no snapshot, and `onError` leaves the cache unchanged again —
for both the client and the activity update mutation. -/
theorem update_mutation_no_snapshot_frame :
    (∀ (cache : Cache Client) (id : String) (data : PartialClient) (now : String),
      cache (clientDetailKey id) = none →
      (updateClientOnMutate cache id data now).1 = cache ∧
      (updateClientOnMutate cache id data now).2.previousClient = none ∧
      updateClientOnError (updateClientOnMutate cache id data now).1 id
        (updateClientOnMutate cache id data now).2 = cache) ∧
    (∀ (cache : Cache Activity) (id : String) (data : PartialActivity) (now : String),
      cache (activityDetailKey id) = none →
      (updateActivityOnMutate cache id data now).1 = cache ∧
      (updateActivityOnMutate cache id data now).2.previousActivity = none ∧
      updateActivityOnError (updateActivityOnMutate cache id data now).1 id
        (updateActivityOnMutate cache id data now).2 = cache) := by
  constructor
  · intro cache id data now h
    refine ⟨?_, ?_, ?_⟩ <;> simp [updateClientOnMutate, updateClientOnError, h]
  · intro cache id data now h
    refine ⟨?_, ?_, ?_⟩ <;> simp [updateActivityOnMutate, updateActivityOnError, h]

/-- The always-empty client cache, used to witness C10. -/
def emptyClientCache : Cache Client := fun _ => none

/-- The always-empty activity cache, used to witness C10. -/
def emptyActivityCache : Cache Activity := fun _ => none

/-- Witness for C10 at the empty caches, a concrete id, an empty patch and a
fixed timestamp. -/
theorem update_mutation_no_snapshot_frame_witness :
    ((updateClientOnMutate emptyClientCache "c1" {} "2024-01-01").1 = emptyClientCache ∧
      (updateClientOnMutate emptyClientCache "c1" {} "2024-01-01").2.previousClient = none ∧
      updateClientOnError (updateClientOnMutate emptyClientCache "c1" {} "2024-01-01").1 "c1"
        (updateClientOnMutate emptyClientCache "c1" {} "2024-01-01").2 = emptyClientCache) ∧
    ((updateActivityOnMutate emptyActivityCache "a1" {} "2024-01-01").1 = emptyActivityCache ∧
      (updateActivityOnMutate emptyActivityCache "a1" {} "2024-01-01").2.previousActivity = none ∧
      updateActivityOnError (updateActivityOnMutate emptyActivityCache "a1" {} "2024-01-01").1 "a1"
        (updateActivityOnMutate emptyActivityCache "a1" {} "2024-01-01").2 = emptyActivityCache) :=
  ⟨update_mutation_no_snapshot_frame.1 emptyClientCache "c1" {} "2024-01-01" rfl,
    update_mutation_no_snapshot_frame.2 emptyActivityCache "a1" {} "2024-01-01" rfl⟩

/-- C2 counterexample: the claim says write mutations are never retried
automatically, but `defaultQueryOptions.mutations.retry` is `1`, so a mutation
that has failed once (failure count 0 so far) is retried. -/
theorem retry_policy_counterexample :
    mutationRetry 0 = true ∧ mutationRetryCount ≠ 0 := by decide

/-- C2 amended: a read query is retried at most 2 times and never when the
error message carries a 404 or 401 marker; a write mutation is automatically
retried exactly once (its only retry happens after the first failure). -/
theorem retry_policy_amended :
    (∀ (n : Nat) (msg : String), queryRetry n msg = true → n < 2) ∧
    (∀ (n : Nat) (msg : String), strIncludes msg "404" = true → queryRetry n msg = false) ∧
    (∀ (n : Nat) (msg : String), strIncludes msg "401" = true → queryRetry n msg = false) ∧
    (∀ n : Nat, mutationRetry n = true ↔ n = 0) := by
  refine ⟨?_, ?_, ?_, ?_⟩
  · intro n msg h
    by_cases h4 : (strIncludes msg "404" || strIncludes msg "401") = true
    · simp [queryRetry, h4] at h
    · simp only [queryRetry, h4] at h
      simpa using h
  · intro n msg h
    simp [queryRetry, h]
  · intro n msg h
    simp [queryRetry, h]
  · intro n
    simp only [mutationRetry, mutationRetryCount, decide_eq_true_eq]
    omega

/-- Witness for C2 at concrete failure counts and error messages. -/
theorem retry_policy_amended_witness :
    (1 : Nat) < 2 ∧
    queryRetry 0 "Request failed with status code 404" = false ∧
    queryRetry 0 "Request failed with status code 401" = false ∧
    mutationRetry 0 = true :=
  ⟨retry_policy_amended.1 1 "Request failed with status code 500" (by decide),
    retry_policy_amended.2.1 0 "Request failed with status code 404" (by decide),
    retry_policy_amended.2.2.1 0 "Request failed with status code 401" (by decide),
    (retry_policy_amended.2.2.2 0).mpr rfl⟩

/-- A shift activity input with no previous client (otherwise valid). -/
def shiftMissingPrev : ActivityFormData :=
  { date := "2024-01-10", clientId := "c2", siteId := "s1", previousClientId := none,
    action := ActionType.shift, dateOfPurchase := "2024-01-01", fromDate := "2024-01-15",
    toDate := some "2024-03-15" }

/-- The same payload with action `new` and no previous client. -/
def newNoPrev : ActivityFormData :=
  { date := "2024-01-10", clientId := "c2", siteId := "s1", previousClientId := none,
    action := ActionType.new, dateOfPurchase := "2024-01-01", fromDate := "2024-01-15",
    toDate := some "2024-03-15" }

/-- The same payload with action `new` and a previous client present. -/
def newWithPrev : ActivityFormData :=
  { date := "2024-01-10", clientId := "c2", siteId := "s1", previousClientId := some "c1",
    action := ActionType.new, dateOfPurchase := "2024-01-01", fromDate := "2024-01-15",
    toDate := some "2024-03-15" }

/-- C3 counterexample: the claim says an input with `previousClientId` present
and action ≠ shift is rejected, but the refinement only checks the shift
direction — this concrete input with action `new` and a previous client set
passes the rule and the whole schema. -/
theorem previous_client_rule_counterexample :
    newWithPrev.action ≠ ActionType.shift ∧
    strTruthy newWithPrev.previousClientId = true ∧
    previousClientRule newWithPrev = true ∧
    validateActivity newWithPrev = [] := by decide

/-- C3 amended: the previous-client refinement succeeds iff
`previousClientId` is (truthily) present whenever action is shift — presence
with another action is not rejected. A shift input without it fails with the
error scoped to the `previousClientId` field (once the base field checks
pass), and an action-`new` input without it passes the rule. -/
theorem previous_client_rule_amended :
    (∀ d : ActivityFormData, previousClientRule d = true ↔
      (d.action = ActionType.shift → strTruthy d.previousClientId = true)) ∧
    (∀ d : ActivityFormData, d.action = ActionType.shift →
      strTruthy d.previousClientId = false →
      validateActivityBase d = [] →
      FieldError.mk "previousClientId" "Previous client is required for shift action"
        ∈ validateActivity d) ∧
    (∀ d : ActivityFormData, d.action = ActionType.new → previousClientRule d = true) := by
  refine ⟨?_, ?_, ?_⟩
  · intro d
    by_cases h : d.action = ActionType.shift <;> simp [previousClientRule, h]
  · intro d hact hprev hbase
    simp [validateActivity, hbase, previousClientRule, hact, hprev]
  · intro d hact
    simp [previousClientRule, hact]

/-- Witness for C3: the shift input without a previous client yields the
field-scoped error, and the `new` input without one passes the rule. -/
theorem previous_client_rule_amended_witness :
    (FieldError.mk "previousClientId" "Previous client is required for shift action"
      ∈ validateActivity shiftMissingPrev) ∧
    previousClientRule newNoPrev = true :=
  ⟨previous_client_rule_amended.2.1 shiftMissingPrev (by decide) (by decide) (by decide),
    previous_client_rule_amended.2.2 newNoPrev (by decide)⟩

/-- Ceiling division on naturals, `(a + b - 1) / b`. -/
def ceilDivNat (a b : Nat) : Nat := (a + b - 1) / b

/-- Written from the spec sentence for `activityDuration`: months between two
instants are `ceil(ceil(|end - start| in days) / 30)`, with the instants in
epoch milliseconds. -/
def specActivityDuration (startMs endMs : Int) : Nat :=
  ceilDivNat (ceilDivNat (endMs - startMs).natAbs 86400000) 30

/-- A ceiling division is zero exactly on a zero numerator. -/
theorem ceil_style_div_eq_zero_iff (a b : Nat) (hb : 0 < b) :
    (a + (b - 1)) / b = 0 ↔ a = 0 := by
  rw [Nat.div_eq_zero_iff hb]
  omega

/-- A ceiling division of a positive numerator is at least one. -/
theorem one_le_ceil_style_div (a b : Nat) (hb : 0 < b) (ha : 1 ≤ a) :
    1 ≤ (a + (b - 1)) / b := by
  rw [Nat.le_div_iff_mul_le hb]
  omega

/-- C4: `getMonthsBetween` computes exactly
`ceil(ceil(|end - start| in days) / 30)` (with `now` substituted for an absent
end date); it is 0 iff the two dates denote the same instant, it is 1 for a
span of exactly 30 days, and it is at least 1 for every non-zero span. -/
theorem activity_duration_spec :
    (∀ (s e : String) (now : Int),
      getMonthsBetween s (some e) now = specActivityDuration (dateMs s) (dateMs e)) ∧
    (∀ (s : String) (now : Int),
      getMonthsBetween s none now = specActivityDuration (dateMs s) now) ∧
    (∀ (s e : String) (now : Int),
      getMonthsBetween s (some e) now = 0 ↔ dateMs s = dateMs e) ∧
    (∀ (s e : String) (now : Int),
      (dateMs e - dateMs s).natAbs = 30 * 86400000 → getMonthsBetween s (some e) now = 1) ∧
    (∀ (s e : String) (now : Int),
      dateMs s ≠ dateMs e → 1 ≤ getMonthsBetween s (some e) now) := by
  have key : ∀ (s : String) (endMs : Int) (A : Nat), A = (endMs - dateMs s).natAbs →
      ((A + (86400000 - 1)) / 86400000 + (30 - 1)) / 30 =
        specActivityDuration (dateMs s) endMs := by
    intro s endMs A hA
    subst hA
    simp only [specActivityDuration, ceilDivNat]
    have h1 : (endMs - dateMs s).natAbs + (86400000 - 1) =
        (endMs - dateMs s).natAbs + 86400000 - 1 := by omega
    rw [h1]
    congr 1
  refine ⟨?_, ?_, ?_, ?_, ?_⟩
  · intro s e now
    exact key s (dateMs e) _ rfl
  · intro s now
    exact key s now _ rfl
  · intro s e now
    simp only [getMonthsBetween, getDaysBetween]
    rw [ceil_style_div_eq_zero_iff _ 30 (by decide), ceil_style_div_eq_zero_iff _ 86400000
      (by decide), Int.natAbs_eq_zero, sub_eq_zero, eq_comm]
  · intro s e now h
    simp only [getMonthsBetween, getDaysBetween, h]
  · intro s e now h
    have hA : 1 ≤ (dateMs e - dateMs s).natAbs := by
      rcases Nat.eq_zero_or_pos (dateMs e - dateMs s).natAbs with h0 | h1
      · rw [Int.natAbs_eq_zero, sub_eq_zero] at h0
        exact absurd h0.symm h
      · exact h1
    simp only [getMonthsBetween, getDaysBetween]
    exact one_le_ceil_style_div _ 30 (by decide)
      (one_le_ceil_style_div _ 86400000 (by decide) hA)

/-- Witness for C4: January 1 to January 31 is a 30-day span of duration one
month, and any one-day span already has duration at least one month. -/
theorem activity_duration_spec_witness :
    getMonthsBetween "2024-01-01" (some "2024-01-31") 0 = 1 ∧
    1 ≤ getMonthsBetween "2024-01-01" (some "2024-01-02") 0 :=
  ⟨activity_duration_spec.2.2.2.1 "2024-01-01" "2024-01-31" 0 (by decide),
    activity_duration_spec.2.2.2.2 "2024-01-01" "2024-01-02" 0 (by decide)⟩

/-- C5: the occupancy rate is 0 (not NaN) on the empty list, equals exactly
`100 * activeCount / len` on every non-empty list (`activeCount` being the
number of sites whose `currentClientId` is truthy), and always lies in the
interval `[0, 100]`. -/
theorem occupancy_rate_spec :
    calculateOccupancy [] = 0 ∧
    (∀ sites : List SiteCurrentStatus, sites ≠ [] →
      calculateOccupancy sites =
        100 * ((sites.filter fun site => strTruthy site.currentClientId).length : ℚ)
          / (sites.length : ℚ)) ∧
    (∀ sites : List SiteCurrentStatus,
      0 ≤ calculateOccupancy sites ∧ calculateOccupancy sites ≤ 100) := by
  refine ⟨by simp [calculateOccupancy], ?_, ?_⟩
  · intro sites h
    have hl : sites.length ≠ 0 := by
      simpa [List.length_eq_zero] using h
    rw [calculateOccupancy, if_neg hl]
    ring
  · intro sites
    by_cases hl : sites.length = 0
    · simp [calculateOccupancy, hl]
    · have hb : (0 : ℚ) < (sites.length : ℚ) := by
        exact_mod_cast Nat.pos_of_ne_zero hl
      have hab : ((sites.filter fun site => strTruthy site.currentClientId).length : ℚ)
          ≤ (sites.length : ℚ) := by
        exact_mod_cast List.length_filter_le _ sites
      rw [calculateOccupancy, if_neg hl]
      constructor
      · apply mul_nonneg _ (by norm_num)
        exact div_nonneg (by positivity) hb.le
      · calc ((sites.filter fun site => strTruthy site.currentClientId).length : ℚ)
            / (sites.length : ℚ) * 100
            ≤ 1 * 100 := by
              apply mul_le_mul_of_nonneg_right _ (by norm_num)
              exact (div_le_one hb).mpr hab
          _ = 100 := one_mul 100

/-- Witness for C5 at a one-element site list with an assigned client. -/
theorem occupancy_rate_spec_witness :
    calculateOccupancy [{ currentClientId := some "c1" }] =
      100 * ((([{ currentClientId := some "c1" }] : List SiteCurrentStatus).filter
          fun site => strTruthy site.currentClientId).length : ℚ)
        / (([{ currentClientId := some "c1" }] : List SiteCurrentStatus).length : ℚ) :=
  occupancy_rate_spec.2.1 [{ currentClientId := some "c1" }] (by decide)

/-- The revenue contribution of a single activity with a numeric rate. -/
theorem revenue_single_num (a : Activity) (now : Int) (q : ℚ)
    (h : a.ratePerMonth = some (RateValue.num q)) :
    calculateTotalRevenue [a] now =
      some (q * (getMonthsBetween a.startDate a.endDate now : ℚ)) := by
  by_cases hq : q = 0
  · subst hq
    simp [calculateTotalRevenue, rateTruthy, h]
  · simp [calculateTotalRevenue, rateTruthy, h, hq, rateToNumber, jsAdd, jsMul]

/-- C6 amended: a single activity with a numeric rate `q` contributes exactly
`q * duration`; a falsy rate (absent, `0` or the empty string) contributes 0;
a non-empty rate string that `parseFloat` cannot parse makes the total NaN
(`none`), not 0; and for a fixed non-negative numeric rate the revenue is
monotonically non-decreasing in the duration. -/
theorem activity_revenue_amended :
    (∀ (a : Activity) (now : Int) (q : ℚ), a.ratePerMonth = some (RateValue.num q) →
      calculateTotalRevenue [a] now =
        some (q * (getMonthsBetween a.startDate a.endDate now : ℚ))) ∧
    (∀ (a : Activity) (now : Int), rateTruthy a.ratePerMonth = false →
      calculateTotalRevenue [a] now = some 0) ∧
    (∀ (a : Activity) (now : Int) (s : String), a.ratePerMonth = some (RateValue.str s) →
      s ≠ "" → parseFloat s = none → calculateTotalRevenue [a] now = none) ∧
    (∀ (a₁ a₂ : Activity) (now : Int) (q : ℚ), 0 ≤ q →
      a₁.ratePerMonth = some (RateValue.num q) → a₂.ratePerMonth = some (RateValue.num q) →
      getMonthsBetween a₁.startDate a₁.endDate now ≤
        getMonthsBetween a₂.startDate a₂.endDate now →
      ∃ r₁ r₂ : ℚ, calculateTotalRevenue [a₁] now = some r₁ ∧
        calculateTotalRevenue [a₂] now = some r₂ ∧ r₁ ≤ r₂) := by
  refine ⟨revenue_single_num, ?_, ?_, ?_⟩
  · intro a now h
    simp [calculateTotalRevenue, h]
  · intro a now s h hs hp
    simp [calculateTotalRevenue, rateTruthy, h, hs, rateToNumber, hp, jsMul, jsAdd]
  · intro a₁ a₂ now q hq h₁ h₂ hm
    refine ⟨q * (getMonthsBetween a₁.startDate a₁.endDate now : ℚ),
      q * (getMonthsBetween a₂.startDate a₂.endDate now : ℚ),
      revenue_single_num a₁ now q h₁, revenue_single_num a₂ now q h₂, ?_⟩
    exact mul_le_mul_of_nonneg_left (by exact_mod_cast hm) hq

/-- An activity whose rate is a non-empty string `parseFloat` cannot parse. -/
def nonNumericRateActivity : Activity :=
  { id := "a1", action := ActionType.new, siteId := "s1", siteNo := "S1", clientId := "c1",
    clientName := "Acme", startDate := "2024-01-01", endDate := some "2024-02-01",
    ratePerMonth := some (RateValue.str "abc") }

/-- A fixed negative rate over a one-month span. -/
def negRateOneMonth : Activity :=
  { id := "a2", action := ActionType.new, siteId := "s1", siteNo := "S1", clientId := "c1",
    clientName := "Acme", startDate := "2024-01-01", endDate := some "2024-01-31",
    ratePerMonth := some (RateValue.num (-5)) }

/-- The same fixed negative rate over a two-month span. -/
def negRateTwoMonths : Activity :=
  { id := "a3", action := ActionType.new, siteId := "s1", siteNo := "S1", clientId := "c1",
    clientName := "Acme", startDate := "2024-01-01", endDate := some "2024-03-01",
    ratePerMonth := some (RateValue.num (-5)) }

/-- C6 counterexample: with the non-numeric rate string `abc` the computed
total is NaN (`none`), not the 0 the claim states; and with a fixed negative
rate the revenue strictly decreases as the duration grows, so unrestricted
monotonicity also fails. -/
theorem activity_revenue_counterexample :
    calculateTotalRevenue [nonNumericRateActivity] 0 = none ∧
    (none : JSNum) ≠ some 0 ∧
    calculateTotalRevenue [negRateOneMonth] 0 = some (-5) ∧
    calculateTotalRevenue [negRateTwoMonths] 0 = some (-10) ∧
    getMonthsBetween negRateOneMonth.startDate negRateOneMonth.endDate 0 <
      getMonthsBetween negRateTwoMonths.startDate negRateTwoMonths.endDate 0 ∧
    ((-10 : ℚ) < -5) := by
  refine ⟨by decide, by simp, ?_, ?_, by decide, by norm_num⟩
  · have h := revenue_single_num negRateOneMonth 0 (-5) rfl
    have hm : getMonthsBetween negRateOneMonth.startDate negRateOneMonth.endDate 0 = 1 := by
      decide
    rw [h, hm]
    norm_num
  · have h := revenue_single_num negRateTwoMonths 0 (-5) rfl
    have hm : getMonthsBetween negRateTwoMonths.startDate negRateTwoMonths.endDate 0 = 2 := by
      decide
    rw [h, hm]
    norm_num

/-- A fixed positive rate over a one-month span. -/
def fixedRateOneMonth : Activity :=
  { id := "a4", action := ActionType.new, siteId := "s1", siteNo := "S1", clientId := "c1",
    clientName := "Acme", startDate := "2024-01-01", endDate := some "2024-01-31",
    ratePerMonth := some (RateValue.num 5) }

/-- The same fixed positive rate over a two-month span. -/
def fixedRateTwoMonths : Activity :=
  { id := "a5", action := ActionType.new, siteId := "s1", siteNo := "S1", clientId := "c1",
    clientName := "Acme", startDate := "2024-01-01", endDate := some "2024-03-01",
    ratePerMonth := some (RateValue.num 5) }

/-- An activity with no rate at all. -/
def absentRateActivity : Activity :=
  { id := "a6", action := ActionType.new, siteId := "s1", siteNo := "S1", clientId := "c1",
    clientName := "Acme", startDate := "2024-01-01", endDate := some "2024-01-31",
    ratePerMonth := none }

/-- Witness for C6 at concrete activities: numeric rate times duration, 0 for
an absent rate, NaN for a non-numeric string rate, and monotonicity for the
fixed rate 5. -/
theorem activity_revenue_amended_witness :
    calculateTotalRevenue [fixedRateOneMonth] 0 =
      some (5 * (getMonthsBetween fixedRateOneMonth.startDate fixedRateOneMonth.endDate 0 : ℚ)) ∧
    calculateTotalRevenue [absentRateActivity] 0 = some 0 ∧
    calculateTotalRevenue [nonNumericRateActivity] 0 = none ∧
    (∃ r₁ r₂ : ℚ, calculateTotalRevenue [fixedRateOneMonth] 0 = some r₁ ∧
      calculateTotalRevenue [fixedRateTwoMonths] 0 = some r₂ ∧ r₁ ≤ r₂) :=
  ⟨activity_revenue_amended.1 fixedRateOneMonth 0 5 rfl,
    activity_revenue_amended.2.1 absentRateActivity 0 rfl,
    activity_revenue_amended.2.2.1 nonNumericRateActivity 0 "abc" rfl (by decide) (by decide),
    activity_revenue_amended.2.2.2 fixedRateOneMonth fixedRateTwoMonths 0 5 (by decide) rfl rfl
      (by decide)⟩

/-- Written from the claim's words for C7: 2 digits, 5 letters, 4 digits,
1 letter, 1 alphanumeric, literal `Z`, 1 alphanumeric. -/
def gstClaimChars : List Char → Bool
  | [a1, a2, b1, b2, b3, b4, b5, c1, c2, c3, c4, e1, f1, z1, g1] =>
      isDigitChar a1 && isDigitChar a2 &&
      isUpperChar b1 && isUpperChar b2 && isUpperChar b3 && isUpperChar b4 && isUpperChar b5 &&
      isDigitChar c1 && isDigitChar c2 && isDigitChar c3 && isDigitChar c4 &&
      isUpperChar e1 &&
      (isDigitChar f1 || isUpperChar f1) &&
      z1 == 'Z' &&
      (isDigitChar g1 || isUpperChar g1)
  | _ => false

/-- The acceptance predicate C7 claims for the GST field. -/
def gstClaimAccepts (val : Option String) : Bool :=
  match val with
  | none => true
  | some v => !(strTruthy (some v)) || (decide (v.length = 15) && gstClaimChars v.toList)

/-- C7 counterexample: `29ABCDE1234F0Z5` fits the claimed pattern (its 13th
character `0` is alphanumeric) but the source regex requires `[1-9A-Z]` there,
so the code rejects it with the GST error on the `gstNumber` field. -/
theorem gst_pattern_counterexample :
    gstClaimAccepts (some "29ABCDE1234F0Z5") = true ∧
    gstAccepts (some "29ABCDE1234F0Z5") = false ∧
    validateClient { name := "Acme", gstNumber := some "29ABCDE1234F0Z5" } =
      [⟨"gstNumber",
        "Invalid GST number format. Must be 15 characters. Example: 29ABCDE1234F1Z5"⟩] := by
  decide

/-- C7 amended: the GST refinement accepts exactly the absent or empty value
and the 15-character strings of shape 2 digits, 5 uppercase letters, 4 digits,
1 uppercase letter, 1 character in `[1-9A-Z]` (a non-zero digit or letter —
not every alphanumeric), the literal `Z`, and 1 character in `[0-9A-Z]`; the
example `29ABCDE1234F1Z5` passes and the 14-character `29ABCDE1234F1Z` fails
with the GST error on the `gstNumber` field. -/
theorem gst_validation_amended :
    gstAccepts none = true ∧
    gstAccepts (some "") = true ∧
    (∀ s : String, s ≠ "" → s.length ≠ 15 → gstAccepts (some s) = false) ∧
    (∀ c1 c2 c3 c4 c5 c6 c7 c8 c9 c10 c11 c12 c13 c14 c15 : Char,
      gstAccepts (some (String.mk
          [c1, c2, c3, c4, c5, c6, c7, c8, c9, c10, c11, c12, c13, c14, c15])) = true ↔
        (isDigitChar c1 = true ∧ isDigitChar c2 = true ∧
          isUpperChar c3 = true ∧ isUpperChar c4 = true ∧ isUpperChar c5 = true ∧
          isUpperChar c6 = true ∧ isUpperChar c7 = true ∧
          isDigitChar c8 = true ∧ isDigitChar c9 = true ∧ isDigitChar c10 = true ∧
          isDigitChar c11 = true ∧
          isUpperChar c12 = true ∧
          (('1' ≤ c13 ∧ c13 ≤ '9') ∨ isUpperChar c13 = true) ∧
          c14 = 'Z' ∧
          (isDigitChar c15 = true ∨ isUpperChar c15 = true))) ∧
    gstAccepts (some "29ABCDE1234F1Z5") = true ∧
    validateClient { name := "Acme", gstNumber := some "29ABCDE1234F1Z" } =
      [⟨"gstNumber",
        "Invalid GST number format. Must be 15 characters. Example: 29ABCDE1234F1Z5"⟩] := by
  refine ⟨by decide, by decide, ?_, ?_, by decide, by decide⟩
  · intro s hs hl
    simp [gstAccepts, strTruthy, hs, hl]
  · intro c1 c2 c3 c4 c5 c6 c7 c8 c9 c10 c11 c12 c13 c14 c15
    simp only [gstAccepts, gstPatternTest, gstPatternChars, strTruthy, String.ext_iff,
      Bool.not_eq_true', Bool.or_eq_true, Bool.and_eq_true, decide_eq_true_eq,
      decide_eq_false_iff_not]
    simp [String.length, and_assoc]

/-- Witness for C7: the 14-character example is rejected, through the
length-mismatch conjunct of the theorem. -/
theorem gst_validation_amended_witness :
    gstAccepts (some "29ABCDE1234F1Z") = false :=
  gst_validation_amended.2.2.1 "29ABCDE1234F1Z" (by decide) (by decide)

/-- An activity that ends on 2024-06-01, used to exhibit the wall-clock
dependence of `isActivityActive`. -/
def clockSensitiveActivity : Activity :=
  { id := "a9", action := ActionType.new, siteId := "s1", siteNo := "S1", clientId := "c1",
    clientName := "Acme", startDate := "2024-01-01", endDate := some "2024-06-01" }

/-- C8 counterexample: in the source, `isActivityActive` takes only the
activity — `today` is read from the wall clock inside the function, not
passed as a parameter. For this fixed activity the result differs between two
values of that internal clock read, so the source function is not
deterministic in its explicit inputs. -/
theorem is_active_counterexample :
    isActivityActive clockSensitiveActivity "2024-03-01" = true ∧
    isActivityActive clockSensitiveActivity "2025-01-01" = false := by
  decide

/-- C8 amended: `isActivityActive` reads `today` from the wall clock
internally rather than taking it as a parameter; for any fixed value of that
read it is deterministic and returns true iff the start date is at most
`today` (JS string order on ISO dates) and the end date is absent, empty, or
at least `today`. -/
theorem is_active_amended :
    ∀ (a : Activity) (today : String),
      isActivityActive a today = true ↔
        (jsStrLe a.startDate today = true ∧
          (strTruthy a.endDate = false ∨ jsStrLe today (a.endDate.getD "") = true)) := by
  intro a today
  simp [isActivityActive, Bool.and_eq_true, Bool.or_eq_true, Bool.not_eq_true']

/-- The order `byStartDateDesc` is total. -/
instance : IsTotal Activity byStartDateDesc :=
  ⟨fun a b => le_total (dateMs b.startDate) (dateMs a.startDate)⟩

/-- The order `byStartDateDesc` is transitive. -/
instance : IsTrans Activity byStartDateDesc :=
  ⟨fun _ _ _ hab hbc => le_trans hbc hab⟩

/-- Inserting an element that fails the filter predicate does not change the
filtered list. -/
theorem filter_orderedInsert_of_neg (r : Activity → Activity → Prop) [DecidableRel r]
    (p : Activity → Bool) (x : Activity) (l : List Activity) (hx : p x = false) :
    (l.orderedInsert r x).filter p = l.filter p := by
  induction l with
  | nil => simp [List.orderedInsert, hx]
  | cons b l ih =>
    by_cases hr : r x b
    · simp [List.orderedInsert, hr, hx]
    · simp [List.orderedInsert, hr, List.filter_cons, ih]

/-- Inserting an element that passes the filter predicate, when every element
the insertion can skip over fails it, prepends the element to the filtered
list. -/
theorem filter_orderedInsert_of_pos (r : Activity → Activity → Prop) [DecidableRel r]
    (p : Activity → Bool) (x : Activity) (l : List Activity) (hx : p x = true)
    (h : ∀ b, ¬ r x b → p b = false) :
    (l.orderedInsert r x).filter p = x :: l.filter p := by
  induction l with
  | nil => simp [List.orderedInsert, hx]
  | cons b l ih =>
    by_cases hr : r x b
    · simp [List.orderedInsert, hr, hx]
    · simp [List.orderedInsert, hr, List.filter_cons, h b hr, ih]

/-- Stability of `sortActivitiesByDate`: the activities sharing any fixed
start-date key keep exactly their input order. -/
theorem sortActivitiesByDate_filter_key (l : List Activity) (k : Int) :
    ((sortActivitiesByDate l).filter fun a => dateMs a.startDate == k) =
      l.filter fun a => dateMs a.startDate == k := by
  induction l with
  | nil => rfl
  | cons x l ih =>
    rw [sortActivitiesByDate] at ih
    show ((List.insertionSort byStartDateDesc l).orderedInsert byStartDateDesc x).filter _ = _
    by_cases hx : dateMs x.startDate = k
    · rw [filter_orderedInsert_of_pos byStartDateDesc _ x _ (by simp [hx]) ?_]
      · rw [ih, List.filter_cons, if_pos (by simp [hx])]
      · intro b hb
        simp only [byStartDateDesc, not_le] at hb
        simp only [beq_eq_false_iff_ne, ne_eq]
        intro heq
        rw [heq, hx] at hb
        exact lt_irrefl k hb
    · rw [filter_orderedInsert_of_neg byStartDateDesc _ x _ (by simp [hx]), ih,
        List.filter_cons, if_neg (by simp [hx])]

/-- C9 amended: filtering keeps exactly the activities whose start date lies
in `[from, to]` (inclusive on both ends, JS string order), and sorting orders
by descending start date, keeping the input order of activities with equal
start dates (stability) — there is no identifier tie-break. -/
theorem filter_sort_activities_amended :
    (∀ (acts : List Activity) (f t : String) (a : Activity),
      a ∈ filterActivitiesByDateRange acts f t ↔
        a ∈ acts ∧ jsStrLe f a.startDate = true ∧ jsStrLe a.startDate t = true) ∧
    (∀ acts : List Activity, (sortActivitiesByDate acts).Perm acts) ∧
    (∀ acts : List Activity, (sortActivitiesByDate acts).Sorted byStartDateDesc) ∧
    (∀ (acts : List Activity) (k : Int),
      ((sortActivitiesByDate acts).filter fun a => dateMs a.startDate == k) =
        acts.filter fun a => dateMs a.startDate == k) := by
  refine ⟨?_, ?_, ?_, sortActivitiesByDate_filter_key⟩
  · intro acts f t a
    simp [filterActivitiesByDateRange, List.mem_filter, Bool.and_eq_true]
  · intro acts
    exact List.perm_insertionSort _ _
  · intro acts
    exact List.sorted_insertionSort _ _

/-- Three activities sharing one start date, input order `b`, `a`, `c`. -/
def tieActB : Activity :=
  { id := "b", action := ActionType.new, siteId := "s1", siteNo := "S1", clientId := "c1",
    clientName := "Acme", startDate := "2024-01-05" }

/-- See `tieActB`. -/
def tieActA : Activity :=
  { id := "a", action := ActionType.new, siteId := "s1", siteNo := "S1", clientId := "c1",
    clientName := "Acme", startDate := "2024-01-05" }

/-- See `tieActB`. -/
def tieActC : Activity :=
  { id := "c", action := ActionType.new, siteId := "s1", siteNo := "S1", clientId := "c1",
    clientName := "Acme", startDate := "2024-01-05" }

/-- C9 counterexample: on three activities with equal start dates and ids
`b`, `a`, `c` (in input order), the sort returns the input order — ids
`b, a, c`, which is neither ascending nor descending in the identifier — so
ties are not broken by identifier; the comparator returns 0 and the stable
sort preserves input order. -/
theorem sort_tie_break_counterexample :
    (sortActivitiesByDate [tieActB, tieActA, tieActC]).map (fun a => a.id) = ["b", "a", "c"] ∧
    jsStrLtChars "a".toList "b".toList = true ∧
    jsStrLtChars "a".toList "c".toList = true := by
  decide

end Jankee
